import Mathlib

set_option maxHeartbeats 1000000

/-!
Shallow embedding of the ed-workstation web client (src/apps/web/src/App.tsx).
Text is modelled as lists of characters; JavaScript string helpers used by the
client (trim, split on a single space, join, toUpperCase) are embedded below.
-/

namespace EdWs

/-- Strings of the client are modelled as lists of characters. -/
abbrev Str := List Char

/-- Coerce a Lean string literal into the model representation. -/
def str (s : String) : Str := s.toList

/-- The whitespace class removed by the JavaScript trim used in the client
(ASCII fragment: space, tab, line feed, carriage return, vertical tab,
form feed). -/
def jsWs (c : Char) : Bool :=
  c == ' ' || c == '\t' || c == '\n' || c == '\r' || c == '\x0b' || c == '\x0c'

/-- Remove trailing whitespace, as in the right half of a JavaScript trim. -/
def trimEnd (l : Str) : Str := (l.reverse.dropWhile jsWs).reverse

/-- JavaScript String.prototype.trim: drop whitespace at both ends. -/
def jsTrim (l : Str) : Str := trimEnd (l.dropWhile jsWs)

/-- JavaScript str.split(' '): split at every single space character,
keeping empty segments; the empty string yields one empty segment. -/
def splitOnSpace : Str → List Str
  | [] => [[]]
  | c :: t =>
    if c = ' ' then [] :: splitOnSpace t
    else
      match splitOnSpace t with
      | [] => [[c]]
      | h :: r => (c :: h) :: r

/-- JavaScript parts.join(' '): interleave a single space between segments. -/
def joinSpace : List Str → Str
  | [] => []
  | [x] => x
  | x :: y :: xs => x ++ ' ' :: joinSpace (y :: xs)

/-- JavaScript toUpperCase on the ASCII range. -/
def jsUpper (l : Str) : Str := l.map Char.toUpper

/-- The first space-separated token of a string (specification reading). -/
def firstSpaceTok (l : Str) : Str := l.takeWhile (fun c => c != ' ')

/-- Everything after the first space of a string (specification reading). -/
def afterFirstSpace (l : Str) : Str := (l.dropWhile (fun c => c != ' ')).tail

theorem splitOnSpace_ne_nil (l : Str) : splitOnSpace l ≠ [] := by
  induction l with
  | nil => simp [splitOnSpace]
  | cons c t ih =>
    simp only [splitOnSpace]
    split
    · simp
    · cases h : splitOnSpace t with
      | nil => exact absurd h ih
      | cons a b => simp

theorem joinSpace_splitOnSpace (l : Str) : joinSpace (splitOnSpace l) = l := by
  induction l with
  | nil => rfl
  | cons c t ih =>
    simp only [splitOnSpace]
    split
    · rename_i hc
      cases h : splitOnSpace t with
      | nil => exact absurd h (splitOnSpace_ne_nil t)
      | cons a b =>
        rw [h] at ih
        simp [joinSpace, hc, ih]
    · rename_i hc
      cases h : splitOnSpace t with
      | nil => exact absurd h (splitOnSpace_ne_nil t)
      | cons a b =>
        rw [h] at ih
        cases b with
        | nil => simp_all [joinSpace]
        | cons b1 b2 => simp_all [joinSpace]

theorem splitOnSpace_head (l : Str) : (splitOnSpace l).headD [] = firstSpaceTok l := by
  induction l with
  | nil => rfl
  | cons c t ih =>
    simp only [splitOnSpace, firstSpaceTok]
    split
    · rename_i hc
      simp [List.takeWhile, hc]
    · rename_i hc
      have hbc : (c != ' ') = true := by simp [hc]
      cases h : splitOnSpace t with
      | nil => exact absurd h (splitOnSpace_ne_nil t)
      | cons a b =>
        rw [h] at ih
        simp only [List.headD] at ih
        simp [List.takeWhile, hbc, firstSpaceTok] at ih ⊢
        exact ih

theorem splitOnSpace_tail (l : Str) :
    joinSpace (splitOnSpace l).tail = afterFirstSpace l := by
  induction l with
  | nil => rfl
  | cons c t ih =>
    simp only [splitOnSpace, afterFirstSpace]
    split
    · rename_i hc
      simp only [hc, List.tail_cons]
      rw [joinSpace_splitOnSpace t]
      simp [List.dropWhile]
    · rename_i hc
      cases h : splitOnSpace t with
      | nil => exact absurd h (splitOnSpace_ne_nil t)
      | cons a b =>
        rw [h] at ih
        simp only [List.tail_cons] at ih ⊢
        simp only [afterFirstSpace] at ih
        have hbc : (c != ' ') = true := by simp [hc]
        have hdrop : List.dropWhile (fun c => c != ' ') (c :: t)
            = List.dropWhile (fun c => c != ' ') t := by
          simp [List.dropWhile, hbc]
        rw [hdrop]
        exact ih

theorem dropWhile_head_false {p : Char → Bool} {l : Str} {c : Char} {t : Str}
    (h : l.dropWhile p = c :: t) : p c = false := by
  induction l with
  | nil => simp at h
  | cons a b ih =>
    by_cases hp : p a
    · simp [List.dropWhile, hp] at h
      exact ih h
    · simp [List.dropWhile, hp] at h
      rw [← h.1]
      simp [hp]

theorem dropWhile_suffix_ex (p : Char → Bool) (l : Str) :
    ∃ u, u ++ l.dropWhile p = l := by
  induction l with
  | nil => exact ⟨[], rfl⟩
  | cons a b ih =>
    by_cases hp : p a
    · obtain ⟨u, hu⟩ := ih
      exact ⟨a :: u, by simp [List.dropWhile, hp, hu]⟩
    · exact ⟨[], by simp [List.dropWhile, hp]⟩

theorem trimEnd_head (m : Str) {c : Char} {t : Str}
    (h : trimEnd m = c :: t) : ∃ t2, m = c :: t2 := by
  obtain ⟨u, hu⟩ := dropWhile_suffix_ex jsWs m.reverse
  have hm : m = trimEnd m ++ u.reverse := by
    have := congrArg List.reverse hu
    simpa [trimEnd, List.reverse_append] using this.symm
  exact ⟨t ++ u.reverse, by rw [hm, h]; simp⟩

theorem jsTrim_head_not_ws {l : Str} {c : Char} {t : Str}
    (h : jsTrim l = c :: t) : jsWs c = false := by
  obtain ⟨t2, ht2⟩ := trimEnd_head (l.dropWhile jsWs) h
  exact dropWhile_head_false ht2

theorem firstSpaceTok_jsTrim_ne_nil {l : Str} (h : jsTrim l ≠ []) :
    firstSpaceTok (jsTrim l) ≠ [] := by
  cases hl : jsTrim l with
  | nil => exact absurd hl h
  | cons c t =>
    have hw := jsTrim_head_not_ws hl
    have hc : (c != ' ') = true := by
      simp only [jsWs, Bool.or_eq_false_iff, beq_eq_false_iff_ne] at hw
      simp [hw.1.1.1.1.1]
    simp [firstSpaceTok, List.takeWhile, hc]

/-- A JavaScript number, as produced by Number(string): finite, NaN or an
infinity. The finite payload is kept abstract as a rational. -/
inductive JsNum
  | finite (q : Rat)
  | nan
  | posInf
  | negInf

/-- Number.isFinite. -/
def JsNum.isFinite : JsNum → Bool
  | .finite _ => true
  | _ => false

/-- Row type Patient of App.tsx. -/
structure Patient where
  id : Str
  mrn : Option Str
  name : Str
  sex : Option Str
  dob : Option Str

/-- Row type Encounter of App.tsx. -/
structure Encounter where
  id : Str
  patient_id : Str
  arrival_at : Option Str
  location : Option Str
  status : Str

/-- Row type Note of App.tsx. -/
structure Note where
  id : Str
  encounter_id : Str
  note_type : Str
  title : Option Str
  content : Str
  occurred_at : Str

/-- Row type Order of App.tsx. -/
structure Order where
  id : Str
  encounter_id : Str
  code : Option Str
  name : Str
  status : Str
  occurred_at : Str

/-- Row type ResultRow of App.tsx. -/
structure ResultRow where
  id : Str
  encounter_id : Str
  category : Str
  code : Option Str
  name : Str
  value : Option Str
  unit : Option Str
  flag : Option Str
  occurred_at : Str

/-- Row type DdxEntry of App.tsx; source is the literal "human" or "ai". -/
structure DdxEntry where
  id : Str
  encounter_id : Str
  source : Str
  name : Str
  prob : Option Rat
  reason : Option Str
  occurred_at : Str

/-- Row type AiRun of App.tsx. -/
structure AiRun where
  id : Str
  encounter_id : Str
  provider : Str
  model : Str
  status : Str
  created_at : Str

/-- Row type AiSuggestionRow of App.tsx; suggestion_type is "diagnosis" or
"order". -/
structure AiSuggestionRow where
  id : Str
  encounter_id : Str
  ai_run_id : Str
  suggestion_type : Str
  code : Option Str
  name : Str
  prob : Option Rat
  reason : Option Str
  created_at : Str

/-- One element of AiFunctionResult.diagnoses. -/
structure DiagnosisItem where
  name : Str
  prob : Option Rat
  reason : Option Str

/-- One element of AiFunctionResult.recommendations. -/
structure RecommendationItem where
  code : Option Str
  name : Str
  reason : Option Str

/-- The payload returned by the ai-analyze function. -/
structure AiFunctionResult where
  diagnoses : List DiagnosisItem
  recommendations : List RecommendationItem

/-- The editingNote modal state of App.tsx. -/
structure EditingNote where
  id : Option Str
  note_type : Str
  title : Str
  content : Str
  occurred_at : Str

/-- Projection of a note into the AI context object built by runAi. -/
structure NoteCtx where
  note_type : Str
  title : Option Str
  content : Str
  occurred_at : Str

/-- Projection of an order into the AI context object built by runAi. -/
structure OrderCtx where
  code : Option Str
  name : Str
  status : Str
  occurred_at : Str

/-- Projection of a result into the AI context object built by runAi. -/
structure ResultCtx where
  category : Str
  name : Str
  value : Option Str
  unit : Option Str
  flag : Option Str
  occurred_at : Str

/-- Projection of a ddx entry into the AI context object built by runAi. -/
structure DdxCtx where
  source : Str
  name : Str
  prob : Option Rat
  reason : Option Str

/-- The context object sent to the ai-analyze function by runAi. -/
structure AiContext where
  encounter_id : Str
  notes : List NoteCtx
  orders : List OrderCtx
  results : List ResultCtx
  ddx : List DdxCtx

/-- The payload column of a patient_events row: either the default empty
object or the provider/model payload written by runAi. -/
inductive EventPayload
  | empty
  | providerModel (provider model : Str)

/-- The raw column of an ai_suggestions row: the originating response item. -/
inductive DiagRec
  | fromDiag (d : DiagnosisItem)
  | fromRec (r : RecommendationItem)

/-- The backlink data payload attached to orders created by applyAiOrders. -/
structure OrderBacklink where
  from_ai_run_id : Str
  suggestion_id : Str
  reason : Option Str

/-- Payload of an insert into notes (saveNote). -/
structure NoteInsert where
  encounter_id : Str
  note_type : Str
  title : Option Str
  content : Str
  occurred_at : Str

/-- Payload of an insert into orders (addOrder and applyAiOrders); the data
backlink is only present on the AI-apply path. -/
structure OrderInsert where
  encounter_id : Str
  code : Option Str
  name : Str
  status : Str
  occurred_at : Str
  data : Option OrderBacklink

/-- Payload of an insert into results (addResult). -/
structure ResultInsert where
  encounter_id : Str
  category : Str
  name : Str
  value : Option Str
  unit : Option Str
  flag : Option Str
  occurred_at : Str

/-- Payload of an insert into ddx_entries (addHumanDdx and runAi); the data
column carrying the ai_run_id is only present on the AI path. -/
structure DdxInsert where
  encounter_id : Str
  source : Str
  name : Str
  prob : Option Rat
  reason : Option Str
  occurred_at : Str
  data : Option Str

/-- Payload of an insert into ai_runs (runAi). -/
structure AiRunInsert where
  encounter_id : Str
  provider : Str
  model : Str
  status : Str
  prompt : AiContext
  response : AiFunctionResult

/-- Payload of an insert into ai_suggestions (runAi). -/
structure AiSuggestionInsert where
  encounter_id : Str
  ai_run_id : Str
  suggestion_type : Str
  code : Option Str
  name : Str
  prob : Option Rat
  reason : Option Str
  raw : DiagRec

/-- Payload of an insert into patient_events (logEvent). -/
structure PatientEventInsert where
  encounter_id : Str
  actor_type : Str
  event_type : Str
  entity_table : Option Str
  entity_id : Option Str
  summary : Option Str
  payload : EventPayload
  occurred_at : Str

/-- Payload of an insert into patients (createPatient). -/
structure PatientInsert where
  name : Str
  mrn : Option Str
  sex : Option Str

/-- Payload of an insert into encounters (createEncounter). -/
structure EncounterInsert where
  patient_id : Str
  arrival_at : Str
  location : Option Str
  status : Str

deriving instance DecidableEq for JsNum
deriving instance DecidableEq for Patient
deriving instance DecidableEq for Encounter
deriving instance DecidableEq for Note
deriving instance DecidableEq for Order
deriving instance DecidableEq for ResultRow
deriving instance DecidableEq for DdxEntry
deriving instance DecidableEq for AiRun
deriving instance DecidableEq for AiSuggestionRow
deriving instance DecidableEq for DiagnosisItem
deriving instance DecidableEq for RecommendationItem
deriving instance DecidableEq for AiFunctionResult
deriving instance DecidableEq for EditingNote
deriving instance DecidableEq for NoteCtx
deriving instance DecidableEq for OrderCtx
deriving instance DecidableEq for ResultCtx
deriving instance DecidableEq for DdxCtx
deriving instance DecidableEq for AiContext
deriving instance DecidableEq for EventPayload
deriving instance DecidableEq for DiagRec
deriving instance DecidableEq for OrderBacklink
deriving instance DecidableEq for NoteInsert
deriving instance DecidableEq for OrderInsert
deriving instance DecidableEq for ResultInsert
deriving instance DecidableEq for DdxInsert
deriving instance DecidableEq for AiRunInsert
deriving instance DecidableEq for AiSuggestionInsert
deriving instance DecidableEq for PatientEventInsert
deriving instance DecidableEq for PatientInsert
deriving instance DecidableEq for EncounterInsert

/-- The React state of the App component, one field per useState hook. -/
structure AppState where
  patients : List Patient
  selectedPatientId : Option Str
  encounters : List Encounter
  selectedEncounterId : Option Str
  notes : List Note
  orders : List Order
  results : List ResultRow
  ddx : List DdxEntry
  isBusy : Bool
  isPatientModalOpen : Bool
  newPatientName : Str
  newPatientMrn : Str
  newPatientSex : Str
  newEncounterLocation : Str
  newEncounterArrivalAt : Str
  editingNote : Option EditingNote
  orderInput : Str
  resultCategory : Str
  resultName : Str
  resultValue : Str
  resultUnit : Str
  resultFlag : Str
  ddxName : Str
  ddxProb : Str
  ddxReason : Str
  isAiLoading : Bool
  latestAiRun : Option AiRun
  aiSuggestions : List AiSuggestionRow
  selectedAiOrderSuggestionIds : List Str

deriving instance DecidableEq for AppState

/-- The external world of one user action: the clock, generated row ids, the
ai-analyze outcome, per-table success of store calls, and the rows returned
by the fetch queries. -/
structure Env where
  now : Str
  errMsg : Str
  toIso : Str → Str
  toNum : Str → JsNum
  aiInvoke : Except Str AiFunctionResult
  notesOk : Bool
  ordersOk : Bool
  resultsOk : Bool
  ddxOk : Bool
  aiRunsOk : Bool
  aiSugOk : Bool
  auditOk : Bool
  patientsOk : Bool
  encountersOk : Bool
  newNoteId : Str
  newOrderId : Str
  newResultId : Str
  newDdxId : Str
  newAiRunId : Str
  newPatientId : Str
  newEncounterId : Str
  newOrderIds : List Str
  fetchNotesOk : Bool
  fetchOrdersOk : Bool
  fetchResultsOk : Bool
  fetchDdxOk : Bool
  fetchRunOk : Bool
  fetchSugOk : Bool
  fetchEncountersOk : Bool
  fetchPatientsOk : Bool
  dbPatients : List Patient
  dbEncounters : List Encounter
  dbNotes : List Note
  dbOrders : List Order
  dbResults : List ResultRow
  dbDdx : List DdxEntry
  dbLatestRun : Option AiRun
  dbSuggestions : List AiSuggestionRow

/-- One observable effect of the client against the outside world: an insert
or update attempt on a table together with its outcome, an invocation of the
ai-analyze function, a reload, or a window.alert. -/
inductive Eff
  | insertNotes (rows : List NoteInsert) (ok : Bool)
  | update (table : Str) (id : Str) (row : NoteInsert) (ok : Bool)
  | insertOrders (rows : List OrderInsert) (ok : Bool)
  | insertResults (rows : List ResultInsert) (ok : Bool)
  | insertDdx (rows : List DdxInsert) (ok : Bool)
  | insertAiRuns (rows : List AiRunInsert) (ok : Bool)
  | insertAiSuggestions (rows : List AiSuggestionInsert) (ok : Bool)
  | insertPatientEvents (rows : List PatientEventInsert) (ok : Bool)
  | insertPatients (rows : List PatientInsert) (ok : Bool)
  | insertEncounters (rows : List EncounterInsert) (ok : Bool)
  | invokeAiFn (ok : Bool)
  | fetchEnc (eid : Str)
  | fetchAi (eid : Str)
  | fetchEncs (pid : Str)
  | fetchPats
  | alert (msg : Str)

deriving instance DecidableEq for Eff

/-- trim-or-null: the idiom `x.trim() \x7c\x7c null` of App.tsx. -/
def optOfTrim (x : Str) : Option Str :=
  if jsTrim x = [] then none else some (jsTrim x)

/-- Arguments of the logEvent helper (App.tsx lines 172-199); optional
arguments are defaulted inside the body with the same fallbacks as the
source. -/
structure LogArgs where
  encounter_id : Str
  actor_type : Str
  event_type : Str
  entity_table : Option Str
  entity_id : Option Str
  summary : Option Str
  payload : Option EventPayload
  occurred_at : Option Str

/-- logEvent: best-effort insert into patient_events. The try/catch of the
source swallows any failure, so the call emits its attempt (tagged with the
outcome) and nothing else: no alert, no state change, no thrown error. -/
def logEvent (env : Env) (args : LogArgs) : List Eff :=
  [Eff.insertPatientEvents
    [{ encounter_id := args.encounter_id
       actor_type := args.actor_type
       event_type := args.event_type
       entity_table := args.entity_table
       entity_id := args.entity_id
       summary := args.summary
       payload := args.payload.getD EventPayload.empty
       occurred_at := args.occurred_at.getD env.now }]
    env.auditOk]

/-- fetchPatients (App.tsx lines 204-215): on error the list is left
untouched, otherwise it is replaced by the fetched rows. -/
def fetchPatients (env : Env) (s : AppState) : AppState × List Eff :=
  (if env.fetchPatientsOk then { s with patients := env.dbPatients } else s,
   [Eff.fetchPats])

/-- fetchEncounters (App.tsx lines 217-229): on error the list is left
untouched, otherwise it is replaced by the fetched rows. -/
def fetchEncounters (env : Env) (s : AppState) (patientId : Str) : AppState × List Eff :=
  (if env.fetchEncountersOk then { s with encounters := env.dbEncounters } else s,
   [Eff.fetchEncs patientId])

/-- fetchEncounterData (App.tsx lines 234-256): four parallel selects; each
list is set to the fetched rows, or to [] when its select errored (the source
writes data ?? [] unconditionally); isBusy ends false via finally. -/
def fetchEncounterData (env : Env) (s : AppState) (encounterId : Str) :
    AppState × List Eff :=
  ({ s with
      notes := if env.fetchNotesOk then env.dbNotes else []
      orders := if env.fetchOrdersOk then env.dbOrders else []
      results := if env.fetchResultsOk then env.dbResults else []
      ddx := if env.fetchDdxOk then env.dbDdx else []
      isBusy := false },
   [Eff.fetchEnc encounterId])

/-- fetchLatestAi (App.tsx lines 258-294): load the newest ai_run; on error
or no run, clear both; otherwise load its suggestions (cleared on error). -/
def fetchLatestAi (env : Env) (s : AppState) (encounterId : Str) :
    AppState × List Eff :=
  (if env.fetchRunOk then
     match env.dbLatestRun with
     | none => { s with latestAiRun := none, aiSuggestions := [] }
     | some run =>
       if env.fetchSugOk then
         { s with latestAiRun := some run, aiSuggestions := env.dbSuggestions }
       else
         { s with latestAiRun := some run, aiSuggestions := [] }
   else { s with latestAiRun := none, aiSuggestions := [] },
   [Eff.fetchAi encounterId])

/-- The body of the selectedEncounterId effect when the id is null
(App.tsx lines 314-327): clear every encounter-dependent view. -/
def clearEncounterViews (s : AppState) : AppState :=
  { s with
      notes := [], orders := [], results := [], ddx := []
      latestAiRun := none, aiSuggestions := []
      selectedAiOrderSuggestionIds := [] }

/-- Setting selectedEncounterId: the effect with dependency
[selectedEncounterId] re-runs only when the value changed; a null id clears
the dependent views, a fresh id reloads encounter data and latest AI state. -/
def setSelectedEncounter (env : Env) (s : AppState) (v : Option Str) :
    AppState × List Eff :=
  if v = s.selectedEncounterId then (s, [])
  else
    let s1 := { s with selectedEncounterId := v }
    match v with
    | none => (clearEncounterViews s1, [])
    | some eid =>
      let r1 := fetchEncounterData env s1 eid
      let r2 := fetchLatestAi env r1.1 eid
      (r2.1, r1.2 ++ r2.2)

/-- The patient-list onClick (App.tsx lines 766-771): select the patient and
clear the selected encounter; the patient effect then reloads encounters and
the encounter effect clears the dependent views, each only when its
dependency changed. -/
def selectPatient (env : Env) (s : AppState) (pid : Str) : AppState × List Eff :=
  let pChanged := s.selectedPatientId ≠ some pid
  let eChanged := s.selectedEncounterId ≠ none
  let s1 := { s with selectedPatientId := some pid, selectedEncounterId := none }
  let r2 := if pChanged then fetchEncounters env s1 pid else (s1, [])
  let s3 := if eChanged then clearEncounterViews r2.1 else r2.1
  (s3, r2.2)

/-- createPatient (App.tsx lines 332-358). -/
def createPatient (env : Env) (s : AppState) : AppState × List Eff :=
  let name := jsTrim s.newPatientName
  if name = [] then (s, [])
  else
    let row : PatientInsert :=
      { name := name, mrn := optOfTrim s.newPatientMrn, sex := optOfTrim s.newPatientSex }
    if env.patientsOk then
      let s1 := { s with isPatientModalOpen := false
                         newPatientName := [], newPatientMrn := [], newPatientSex := [] }
      let r1 := fetchPatients env s1
      let pChanged := r1.1.selectedPatientId ≠ some env.newPatientId
      let s2 := { r1.1 with selectedPatientId := some env.newPatientId }
      let r2 := if pChanged then fetchEncounters env s2 env.newPatientId else (s2, [])
      (r2.1, Eff.insertPatients [row] true :: r1.2 ++ r2.2)
    else
      (s, [Eff.insertPatients [row] false,
           Eff.alert (str "新增患者失敗: " ++ env.errMsg)])

/-- createEncounter (App.tsx lines 360-383). -/
def createEncounter (env : Env) (s : AppState) : AppState × List Eff :=
  match s.selectedPatientId with
  | none => (s, [])
  | some pid =>
    let arrival_at :=
      if jsTrim s.newEncounterArrivalAt ≠ [] then env.toIso s.newEncounterArrivalAt
      else env.now
    let row : EncounterInsert :=
      { patient_id := pid, arrival_at := arrival_at
        location := optOfTrim s.newEncounterLocation, status := str "active" }
    if env.encountersOk then
      let r1 := fetchEncounters env s pid
      let r2 := setSelectedEncounter env r1.1 (some env.newEncounterId)
      (r2.1, Eff.insertEncounters [row] true :: r1.2 ++ r2.2)
    else
      (s, [Eff.insertEncounters [row] false,
           Eff.alert (str "新增就診失敗: " ++ env.errMsg)])

/-- saveNote (App.tsx lines 388-433): update when the modal holds an id,
insert otherwise; on success log the event, close the modal and reload. -/
def saveNote (env : Env) (s : AppState) : AppState × List Eff :=
  match s.selectedEncounterId, s.editingNote with
  | some eid, some en =>
    let payload : NoteInsert :=
      { encounter_id := eid
        note_type := en.note_type
        title := optOfTrim en.title
        content := en.content
        occurred_at := if en.occurred_at ≠ [] then env.toIso en.occurred_at else env.now }
    match en.id with
    | some nid =>
      if env.notesOk then
        let ev := logEvent env
          { encounter_id := eid, actor_type := str "human"
            event_type := str "note_updated", entity_table := some (str "notes")
            entity_id := some nid, summary := some (str "Note updated")
            payload := none, occurred_at := none }
        let r := fetchEncounterData env { s with editingNote := none } eid
        (r.1, Eff.update (str "notes") nid payload true :: ev ++ r.2)
      else
        (s, [Eff.update (str "notes") nid payload false,
             Eff.alert (str "更新病歷失敗: " ++ env.errMsg)])
    | none =>
      if env.notesOk then
        let ev := logEvent env
          { encounter_id := eid, actor_type := str "human"
            event_type := str "note_created", entity_table := some (str "notes")
            entity_id := some env.newNoteId, summary := some (str "Note created")
            payload := none, occurred_at := none }
        let r := fetchEncounterData env { s with editingNote := none } eid
        (r.1, Eff.insertNotes [payload] true :: ev ++ r.2)
      else
        (s, [Eff.insertNotes [payload] false,
             Eff.alert (str "新增病歷失敗: " ++ env.errMsg)])
  | _, _ => (s, [])

/-- addOrder (App.tsx lines 435-469): parse the free-text input, insert one
order with status "sent", then log and reload on success. -/
def addOrder (env : Env) (s : AppState) (rawInput : Str) : AppState × List Eff :=
  match s.selectedEncounterId with
  | none => (s, [])
  | some eid =>
    let val := jsTrim rawInput
    if val = [] then (s, [])
    else
      let parts := splitOnSpace val
      let codeRaw := parts.headD []
      let code : Option Str := if codeRaw = [] then none else some (jsUpper codeRaw)
      let nameJ := joinSpace parts.tail
      let name := if nameJ = [] then str "General Order" else nameJ
      let row : OrderInsert :=
        { encounter_id := eid, code := code, name := name
          status := str "sent", occurred_at := env.now, data := none }
      if env.ordersOk then
        let ev := logEvent env
          { encounter_id := eid, actor_type := str "human"
            event_type := str "order_created", entity_table := some (str "orders")
            entity_id := some env.newOrderId
            summary := some (str "Order: " ++ code.getD [] ++ ' ' :: name)
            payload := none, occurred_at := none }
        let r := fetchEncounterData env { s with orderInput := [] } eid
        (r.1, Eff.insertOrders [row] true :: ev ++ r.2)
      else
        (s, [Eff.insertOrders [row] false,
             Eff.alert (str "新增醫囑失敗: " ++ env.errMsg)])

/-- addResult (App.tsx lines 471-514). -/
def addResult (env : Env) (s : AppState) : AppState × List Eff :=
  match s.selectedEncounterId with
  | none => (s, [])
  | some eid =>
    let name := jsTrim s.resultName
    if name = [] then (s, [])
    else
      let row : ResultInsert :=
        { encounter_id := eid, category := s.resultCategory, name := name
          value := optOfTrim s.resultValue, unit := optOfTrim s.resultUnit
          flag := optOfTrim s.resultFlag, occurred_at := env.now }
      if env.resultsOk then
        let ev := logEvent env
          { encounter_id := eid, actor_type := str "human"
            event_type := str "result_created", entity_table := some (str "results")
            entity_id := some env.newResultId
            summary := some (str "Result: " ++ name)
            payload := none, occurred_at := none }
        let r := fetchEncounterData env
          { s with resultName := [], resultValue := [], resultUnit := [], resultFlag := [] }
          eid
        (r.1, Eff.insertResults [row] true :: ev ++ r.2)
      else
        (s, [Eff.insertResults [row] false,
             Eff.alert (str "新增報告失敗: " ++ env.errMsg)])

/-- The prob value addHumanDdx persists: Number(ddxProb) when the input
trims nonempty, gated by Number.isFinite, null otherwise. -/
def humanDdxProb (env : Env) (s : AppState) : Option Rat :=
  match (if jsTrim s.ddxProb ≠ [] then some (env.toNum s.ddxProb) else none) with
  | some (JsNum.finite q) => some q
  | _ => none

/-- addHumanDdx (App.tsx lines 516-559): the prob input is converted with
Number when its trim is nonempty and the inserted value is gated by
Number.isFinite, falling back to null otherwise. -/
def addHumanDdx (env : Env) (s : AppState) : AppState × List Eff :=
  match s.selectedEncounterId with
  | none => (s, [])
  | some eid =>
    let name := jsTrim s.ddxName
    if name = [] then (s, [])
    else
      let row : DdxInsert :=
        { encounter_id := eid, source := str "human", name := name
          prob := humanDdxProb env s, reason := optOfTrim s.ddxReason
          occurred_at := env.now, data := none }
      if env.ddxOk then
        let ev := logEvent env
          { encounter_id := eid, actor_type := str "human"
            event_type := str "ddx_added", entity_table := some (str "ddx_entries")
            entity_id := some env.newDdxId
            summary := some (str "DDX (human): " ++ name)
            payload := none, occurred_at := none }
        let r := fetchEncounterData env
          { s with ddxName := [], ddxProb := [], ddxReason := [] } eid
        (r.1, Eff.insertDdx [row] true :: ev ++ r.2)
      else
        (s, [Eff.insertDdx [row] false,
             Eff.alert (str "新增鑑別診斷失敗: " ++ env.errMsg)])

/-- The context object runAi assembles from the loaded state
(App.tsx lines 571-589). -/
def buildAiContext (s : AppState) (eid : Str) : AiContext :=
  { encounter_id := eid
    notes := s.notes.map fun n =>
      { note_type := n.note_type, title := n.title
        content := n.content, occurred_at := n.occurred_at }
    orders := s.orders.map fun o =>
      { code := o.code, name := o.name, status := o.status, occurred_at := o.occurred_at }
    results := s.results.map fun r =>
      { category := r.category, name := r.name, value := r.value
        unit := r.unit, flag := r.flag, occurred_at := r.occurred_at }
    ddx := s.ddx.map fun d =>
      { source := d.source, name := d.name, prob := d.prob, reason := d.reason } }

/-- runAi (App.tsx lines 564-695): invoke ai-analyze, persist the run, fan
out suggestions and AI ddx entries, then reload; a failed function call or a
failed run/suggestion insert aborts with an alert, a failed ddx insert is
only logged to the console. -/
def runAi (env : Env) (s : AppState) : AppState × List Eff :=
  match s.selectedEncounterId with
  | none => (s, [])
  | some eid =>
    if s.isAiLoading then (s, [])
    else
      let s1 := { s with isAiLoading := true, selectedAiOrderSuggestionIds := [] }
      let context := buildAiContext s eid
      match env.aiInvoke with
      | Except.error m =>
        ({ s1 with isAiLoading := false },
         [Eff.invokeAiFn false, Eff.alert (str "AI 分析失敗: " ++ m)])
      | Except.ok result =>
        let runRow : AiRunInsert :=
          { encounter_id := eid, provider := str "gemini"
            model := str "gemini-2.0-flash", status := str "completed"
            prompt := context, response := result }
        if env.aiRunsOk then
          let aiRunId := env.newAiRunId
          let ev := logEvent env
            { encounter_id := eid, actor_type := str "ai"
              event_type := str "ai_run_completed", entity_table := some (str "ai_runs")
              entity_id := some aiRunId, summary := some (str "AI run completed")
              payload := some (EventPayload.providerModel (str "gemini") (str "gemini-2.0-flash"))
              occurred_at := none }
          let diagRows : List AiSuggestionInsert := result.diagnoses.map fun d =>
            { encounter_id := eid, ai_run_id := aiRunId
              suggestion_type := str "diagnosis", code := none, name := d.name
              prob := d.prob, reason := d.reason, raw := DiagRec.fromDiag d }
          let orderRows : List AiSuggestionInsert := result.recommendations.map fun r =>
            { encounter_id := eid, ai_run_id := aiRunId
              suggestion_type := str "order", code := r.code, name := r.name
              prob := none, reason := r.reason, raw := DiagRec.fromRec r }
          if env.aiSugOk then
            let ddxRows : List DdxInsert := result.diagnoses.map fun d =>
              { encounter_id := eid, source := str "ai", name := d.name
                prob := d.prob, reason := d.reason
                occurred_at := env.now, data := some aiRunId }
            let r1 := fetchEncounterData env s1 eid
            let r2 := fetchLatestAi env r1.1 eid
            ({ r2.1 with isAiLoading := false },
             Eff.invokeAiFn true :: Eff.insertAiRuns [runRow] true :: ev ++
               Eff.insertAiSuggestions (diagRows ++ orderRows) true ::
               Eff.insertDdx ddxRows env.ddxOk :: r1.2 ++ r2.2)
          else
            ({ s1 with isAiLoading := false },
             Eff.invokeAiFn true :: Eff.insertAiRuns [runRow] true :: ev ++
               [Eff.insertAiSuggestions (diagRows ++ orderRows) false,
                Eff.alert (str "AI 結果儲存失敗(ai_suggestions): " ++ env.errMsg)])
        else
          ({ s1 with isAiLoading := false },
           [Eff.invokeAiFn true, Eff.insertAiRuns [runRow] false,
            Eff.alert (str "AI 結果儲存失敗(ai_runs): " ++ env.errMsg)])

/-- applyAiOrders (App.tsx lines 697-735): turn the selected order-type
suggestions into orders with status "sent" and a backlink payload, log each
insertion best-effort, then clear the selection and reload. -/
def applyAiOrders (env : Env) (s : AppState) : AppState × List Eff :=
  match s.selectedEncounterId with
  | none => (s, [])
  | some eid =>
    let picks := s.aiSuggestions.filter fun g =>
      g.suggestion_type == str "order" && s.selectedAiOrderSuggestionIds.contains g.id
    if picks.length = 0 then (s, [])
    else
      let rows : List OrderInsert := picks.map fun p =>
        { encounter_id := eid, code := p.code, name := p.name
          status := str "sent", occurred_at := env.now
          data := some { from_ai_run_id := p.ai_run_id
                         suggestion_id := p.id, reason := p.reason } }
      if env.ordersOk then
        let evs := env.newOrderIds.flatMap fun i =>
          logEvent env
            { encounter_id := eid, actor_type := str "ai"
              event_type := str "order_created_from_ai"
              entity_table := some (str "orders"), entity_id := some i
              summary := some (str "Order created from AI suggestion")
              payload := none, occurred_at := none }
        let r := fetchEncounterData env
          { s with selectedAiOrderSuggestionIds := [] } eid
        (r.1, Eff.insertOrders rows true :: evs ++ r.2)
      else
        (s, [Eff.insertOrders rows false,
             Eff.alert (str "套用 AI 醫囑失敗: " ++ env.errMsg)])

/-- Every user-triggered operation of the App component. -/
inductive Action
  | saveNote
  | addOrder (raw : Str)
  | addResult
  | addHumanDdx
  | runAi
  | applyAiOrders
  | createPatient
  | createEncounter
  | selectPatient (pid : Str)
  | selectEncounter (v : Option Str)

/-- Dispatch one user action. -/
def step (env : Env) (s : AppState) : Action → AppState × List Eff
  | Action.saveNote => saveNote env s
  | Action.addOrder raw => addOrder env s raw
  | Action.addResult => addResult env s
  | Action.addHumanDdx => addHumanDdx env s
  | Action.runAi => runAi env s
  | Action.applyAiOrders => applyAiOrders env s
  | Action.createPatient => createPatient env s
  | Action.createEncounter => createEncounter env s
  | Action.selectPatient pid => selectPatient env s pid
  | Action.selectEncounter v => setSelectedEncounter env s v

/-- The shape of one select query issued through the store client: the table,
the equality filter column if any, the order column with its direction, and
whether a limit(1) is applied. -/
structure SelectQuery where
  table : Str
  filter : Option Str
  orderBy : Str
  ascending : Bool
  limitOne : Bool

deriving instance DecidableEq for SelectQuery

/-- The select of fetchPatients (App.tsx lines 205-208). -/
def patientsSelect : SelectQuery :=
  { table := str "patients", filter := none
    orderBy := str "created_at", ascending := false, limitOne := false }

/-- The select of fetchEncounters (App.tsx lines 218-222). -/
def encountersSelect : SelectQuery :=
  { table := str "encounters", filter := some (str "patient_id")
    orderBy := str "created_at", ascending := false, limitOne := false }

/-- The notes select of fetchEncounterData (App.tsx line 238). -/
def notesSelect : SelectQuery :=
  { table := str "notes", filter := some (str "encounter_id")
    orderBy := str "occurred_at", ascending := false, limitOne := false }

/-- The orders select of fetchEncounterData (App.tsx line 239). -/
def ordersSelect : SelectQuery :=
  { table := str "orders", filter := some (str "encounter_id")
    orderBy := str "occurred_at", ascending := false, limitOne := false }

/-- The results select of fetchEncounterData (App.tsx line 240). -/
def resultsSelect : SelectQuery :=
  { table := str "results", filter := some (str "encounter_id")
    orderBy := str "occurred_at", ascending := false, limitOne := false }

/-- The ddx_entries select of fetchEncounterData (App.tsx line 241). -/
def ddxSelect : SelectQuery :=
  { table := str "ddx_entries", filter := some (str "encounter_id")
    orderBy := str "occurred_at", ascending := false, limitOne := false }

/-- The ai_runs select of fetchLatestAi (App.tsx lines 259-264). -/
def aiRunsSelect : SelectQuery :=
  { table := str "ai_runs", filter := some (str "encounter_id")
    orderBy := str "created_at", ascending := false, limitOne := true }

/-- The ai_suggestions select of fetchLatestAi (App.tsx lines 281-285): note
the source orders by created_at with ascending true. -/
def aiSuggestionsSelect : SelectQuery :=
  { table := str "ai_suggestions", filter := some (str "ai_run_id")
    orderBy := str "created_at", ascending := true, limitOne := false }

/-- Every select query the web client issues against the store. -/
def clientSelectQueries : List SelectQuery :=
  [patientsSelect, encountersSelect, notesSelect, ordersSelect,
   resultsSelect, ddxSelect, aiRunsSelect, aiSuggestionsSelect]

/-- Recognizer for alert effects. -/
def Eff.isAlert : Eff → Bool
  | Eff.alert _ => true
  | _ => false

/-- Recognizer for ai_runs insert attempts. -/
def Eff.isInsertAiRuns : Eff → Bool
  | Eff.insertAiRuns _ _ => true
  | _ => false

/-- Recognizer for ai_suggestions insert attempts. -/
def Eff.isInsertAiSuggestions : Eff → Bool
  | Eff.insertAiSuggestions _ _ => true
  | _ => false

/-- Recognizer for successful ai_suggestions inserts. -/
def Eff.isInsertAiSuggestionsOk : Eff → Bool
  | Eff.insertAiSuggestions _ ok => ok
  | _ => false

/-- Recognizer for ddx_entries insert attempts. -/
def Eff.isInsertDdx : Eff → Bool
  | Eff.insertDdx _ _ => true
  | _ => false

/-- Recognizer for orders insert attempts. -/
def Eff.isInsertOrders : Eff → Bool
  | Eff.insertOrders _ _ => true
  | _ => false

/-- Recognizer for patient_events insert attempts. -/
def Eff.isInsertPatientEvents : Eff → Bool
  | Eff.insertPatientEvents _ _ => true
  | _ => false

/-- Recognizer for the two reload effects. -/
def Eff.isReload : Eff → Bool
  | Eff.fetchEnc _ => true
  | Eff.fetchAi _ => true
  | _ => false

/-- All order rows whose insertion was attempted in a trace. -/
def ordersInserted : List Eff → List OrderInsert
  | [] => []
  | Eff.insertOrders rows _ :: t => rows ++ ordersInserted t
  | _ :: t => ordersInserted t

/-- All ddx rows whose insertion was attempted in a trace. -/
def ddxInserted : List Eff → List DdxInsert
  | [] => []
  | Eff.insertDdx rows _ :: t => rows ++ ddxInserted t
  | _ :: t => ddxInserted t

/-- A trace with the best-effort audit inserts removed. -/
def scrubAudit (tr : List Eff) : List Eff :=
  tr.filter fun e => !e.isInsertPatientEvents

/-- The alert messages of a trace, in order. -/
def alertsOf (tr : List Eff) : List Str :=
  tr.filterMap fun e =>
    match e with
    | Eff.alert m => some m
    | _ => none

/-- The initial component state: the useState initializers of App.tsx. -/
def initialState : AppState :=
  { patients := [], selectedPatientId := none
    encounters := [], selectedEncounterId := none
    notes := [], orders := [], results := [], ddx := []
    isBusy := false, isPatientModalOpen := false
    newPatientName := [], newPatientMrn := [], newPatientSex := []
    newEncounterLocation := str "ER-012", newEncounterArrivalAt := []
    editingNote := none, orderInput := []
    resultCategory := str "lab", resultName := [], resultValue := []
    resultUnit := [], resultFlag := []
    ddxName := [], ddxProb := [], ddxReason := []
    isAiLoading := false, latestAiRun := none, aiSuggestions := []
    selectedAiOrderSuggestionIds := [] }

/-- A benign environment for concrete evaluations: every store call
succeeds, the ai function returns an empty result, the clock is fixed. -/
def env0 : Env :=
  { now := str "2025-12-25T08:30:00.000Z"
    errMsg := str "boom"
    toIso := fun x => x
    toNum := fun _ => JsNum.nan
    aiInvoke := Except.ok { diagnoses := [], recommendations := [] }
    notesOk := true, ordersOk := true, resultsOk := true, ddxOk := true
    aiRunsOk := true, aiSugOk := true, auditOk := true
    patientsOk := true, encountersOk := true
    newNoteId := str "n1", newOrderId := str "o1", newResultId := str "r1"
    newDdxId := str "d1", newAiRunId := str "a1", newPatientId := str "p1"
    newEncounterId := str "e1", newOrderIds := [str "o1"]
    fetchNotesOk := true, fetchOrdersOk := true, fetchResultsOk := true
    fetchDdxOk := true, fetchRunOk := true, fetchSugOk := true
    fetchEncountersOk := true, fetchPatientsOk := true
    dbPatients := [], dbEncounters := [], dbNotes := [], dbOrders := []
    dbResults := [], dbDdx := [], dbLatestRun := none, dbSuggestions := [] }

/-- A state with an encounter selected, for concrete evaluations. -/
def stateWithEncounter : AppState :=
  { initialState with
      selectedPatientId := some (str "p1")
      selectedEncounterId := some (str "e1") }

/-- C1: addOrder on an input that trims to empty creates nothing and leaves
the state unchanged; otherwise exactly one order insert is attempted whose
code is the first space-separated token of the trimmed input uppercased and
whose name is the remainder of the trimmed input, defaulting to
"General Order" when that remainder is empty. -/
theorem c1_addOrder_parsing : ∀ (env : Env) (s : AppState) (raw eid : Str),
    s.selectedEncounterId = some eid →
    (jsTrim raw = [] → addOrder env s raw = (s, [])) ∧
    (jsTrim raw ≠ [] →
      ordersInserted (addOrder env s raw).2 =
        [{ encounter_id := eid
           code := some (jsUpper (firstSpaceTok (jsTrim raw)))
           name := if afterFirstSpace (jsTrim raw) = [] then str "General Order"
                   else afterFirstSpace (jsTrim raw)
           status := str "sent", occurred_at := env.now, data := none }]) := by
  intro env s raw eid h
  refine ⟨fun ht => by simp [addOrder, h, ht], fun ht => ?_⟩
  have hhead : (splitOnSpace (jsTrim raw)).headD [] = firstSpaceTok (jsTrim raw) :=
    splitOnSpace_head _
  have htail : joinSpace (splitOnSpace (jsTrim raw)).tail = afterFirstSpace (jsTrim raw) :=
    splitOnSpace_tail _
  have hcode : ¬ firstSpaceTok (jsTrim raw) = [] := firstSpaceTok_jsTrim_ne_nil ht
  simp only [addOrder, h]
  rw [if_neg ht]
  simp only [hhead, htail, if_neg hcode]
  by_cases ho : env.ordersOk
  · simp [ho, ordersInserted, logEvent, fetchEncounterData]
  · simp [ho, ordersInserted]

/-- C1 witness: the free-text input "IV001 N-S 500ml" with an encounter
selected yields exactly one attempted order insert with code "IV001" and
name carrying the remainder; a second conjunct checks the bare-code input
"CBC" falls back to the name "General Order". -/
theorem c1_addOrder_parsing_witness :
    ordersInserted (addOrder env0 stateWithEncounter (str "IV001 N/S 500ml")).2 =
      [{ encounter_id := str "e1"
         code := some (jsUpper (firstSpaceTok (jsTrim (str "IV001 N/S 500ml"))))
         name := if afterFirstSpace (jsTrim (str "IV001 N/S 500ml")) = []
                 then str "General Order"
                 else afterFirstSpace (jsTrim (str "IV001 N/S 500ml"))
         status := str "sent", occurred_at := env0.now, data := none }] ∧
    ordersInserted (addOrder env0 stateWithEncounter (str "CBC")).2 =
      [{ encounter_id := str "e1"
         code := some (jsUpper (firstSpaceTok (jsTrim (str "CBC"))))
         name := if afterFirstSpace (jsTrim (str "CBC")) = []
                 then str "General Order"
                 else afterFirstSpace (jsTrim (str "CBC"))
         status := str "sent", occurred_at := env0.now, data := none }] :=
  ⟨(c1_addOrder_parsing env0 stateWithEncounter (str "IV001 N/S 500ml")
      (str "e1") rfl).2 (by decide),
   (c1_addOrder_parsing env0 stateWithEncounter (str "CBC")
      (str "e1") rfl).2 (by decide)⟩

/-- C2: when the ai-analyze invocation fails, runAi alerts and aborts: the
in-memory notes, orders, results and ddx lists are unchanged and no
ai_runs, ai_suggestions, ddx_entries or orders insert is attempted. -/
theorem c2_ai_failure_aborts : ∀ (env : Env) (s : AppState) (eid m : Str),
    s.selectedEncounterId = some eid →
    s.isAiLoading = false →
    env.aiInvoke = Except.error m →
    (runAi env s).1.notes = s.notes ∧
    (runAi env s).1.orders = s.orders ∧
    (runAi env s).1.results = s.results ∧
    (runAi env s).1.ddx = s.ddx ∧
    (runAi env s).2.any Eff.isAlert = true ∧
    (runAi env s).2.any Eff.isInsertAiRuns = false ∧
    (runAi env s).2.any Eff.isInsertAiSuggestions = false ∧
    (runAi env s).2.any Eff.isInsertDdx = false ∧
    (runAi env s).2.any Eff.isInsertOrders = false := by
  intro env s eid m h1 h2 h3
  simp [runAi, h1, h2, h3, Eff.isAlert, Eff.isInsertAiRuns,
        Eff.isInsertAiSuggestions, Eff.isInsertDdx, Eff.isInsertOrders]

/-- C2 witness: a concrete failed invocation against a selected encounter. -/
theorem c2_ai_failure_aborts_witness :
    (runAi { env0 with aiInvoke := Except.error (str "x") } stateWithEncounter).1.notes
        = stateWithEncounter.notes ∧
    (runAi { env0 with aiInvoke := Except.error (str "x") } stateWithEncounter).1.orders
        = stateWithEncounter.orders ∧
    (runAi { env0 with aiInvoke := Except.error (str "x") } stateWithEncounter).1.results
        = stateWithEncounter.results ∧
    (runAi { env0 with aiInvoke := Except.error (str "x") } stateWithEncounter).1.ddx
        = stateWithEncounter.ddx ∧
    (runAi { env0 with aiInvoke := Except.error (str "x") } stateWithEncounter).2.any
        Eff.isAlert = true ∧
    (runAi { env0 with aiInvoke := Except.error (str "x") } stateWithEncounter).2.any
        Eff.isInsertAiRuns = false ∧
    (runAi { env0 with aiInvoke := Except.error (str "x") } stateWithEncounter).2.any
        Eff.isInsertAiSuggestions = false ∧
    (runAi { env0 with aiInvoke := Except.error (str "x") } stateWithEncounter).2.any
        Eff.isInsertDdx = false ∧
    (runAi { env0 with aiInvoke := Except.error (str "x") } stateWithEncounter).2.any
        Eff.isInsertOrders = false :=
  c2_ai_failure_aborts { env0 with aiInvoke := Except.error (str "x") }
    stateWithEncounter (str "e1") (str "x") rfl rfl rfl

/-- C3: with a successful ai-analyze response, a failed ai_runs insert
aborts with an alert before any later insert or reload; a failed
ai_suggestions insert aborts with an alert before the ddx insert and the
reloads; a failed ddx_entries insert is tolerated: no alert, the
suggestions insert has already succeeded, and both reloads still run. -/
theorem c3_ai_persist_error_paths : ∀ (env : Env) (s : AppState) (eid : Str)
    (res : AiFunctionResult),
    s.selectedEncounterId = some eid →
    s.isAiLoading = false →
    env.aiInvoke = Except.ok res →
    (env.aiRunsOk = false →
      (runAi env s).2.any Eff.isAlert = true ∧
      (runAi env s).2.any Eff.isInsertAiSuggestions = false ∧
      (runAi env s).2.any Eff.isInsertDdx = false ∧
      (runAi env s).2.any Eff.isInsertPatientEvents = false ∧
      (runAi env s).2.any Eff.isReload = false) ∧
    (env.aiRunsOk = true → env.aiSugOk = false →
      (runAi env s).2.any Eff.isAlert = true ∧
      (runAi env s).2.any Eff.isInsertDdx = false ∧
      (runAi env s).2.any Eff.isReload = false) ∧
    (env.aiRunsOk = true → env.aiSugOk = true → env.ddxOk = false →
      (runAi env s).2.any Eff.isAlert = false ∧
      (runAi env s).2.any Eff.isInsertAiSuggestionsOk = true ∧
      Eff.fetchEnc eid ∈ (runAi env s).2 ∧
      Eff.fetchAi eid ∈ (runAi env s).2) := by
  intro env s eid res h1 h2 h3
  refine ⟨fun hr => ?_, fun hr hs => ?_, fun hr hs hd => ?_⟩ <;>
    simp [runAi, h1, h2, h3, hr, logEvent, fetchEncounterData, fetchLatestAi,
          Eff.isAlert, Eff.isInsertAiSuggestions, Eff.isInsertDdx,
          Eff.isInsertPatientEvents, Eff.isReload, Eff.isInsertAiSuggestionsOk] <;>
    simp_all

/-- C3 witness: concrete run with the ai_runs insert failing. -/
theorem c3_ai_persist_error_paths_witness :
    (runAi { env0 with aiRunsOk := false } stateWithEncounter).2.any Eff.isAlert = true ∧
    (runAi { env0 with aiRunsOk := false } stateWithEncounter).2.any
        Eff.isInsertAiSuggestions = false ∧
    (runAi { env0 with aiRunsOk := false } stateWithEncounter).2.any
        Eff.isInsertDdx = false ∧
    (runAi { env0 with aiRunsOk := false } stateWithEncounter).2.any
        Eff.isInsertPatientEvents = false ∧
    (runAi { env0 with aiRunsOk := false } stateWithEncounter).2.any
        Eff.isReload = false :=
  (c3_ai_persist_error_paths { env0 with aiRunsOk := false } stateWithEncounter
    (str "e1") { diagnoses := [], recommendations := [] } rfl rfl rfl).1 rfl

/-- C5 counterexample: the ai_suggestions fetch of fetchLatestAi is one of
the client's select queries and is ordered ascending, so not every select is
ordered by its timestamp column descending (the patients select is also
unfiltered). -/
theorem c5_select_queries_counterexample :
    aiSuggestionsSelect ∈ clientSelectQueries ∧
    aiSuggestionsSelect.ascending = true ∧
    ¬ (∀ q ∈ clientSelectQueries, q.filter.isSome = true ∧ q.ascending = false) := by
  refine ⟨by decide, by decide, ?_⟩
  intro h
  have := (h aiSuggestionsSelect (by decide)).2
  simp [aiSuggestionsSelect] at this

/-- The foreign key through which each table's rows are owned, following
the spec's data model (Encounter belongs to Patient; Note, Order, Result,
DdxEntry and AiRun belong to Encounter; AiSuggestion belongs to AiRun;
Patient is the root and has no owner). -/
def specOwningFk (table : Str) : Option Str :=
  if table == str "encounters" then some (str "patient_id")
  else if table == str "notes" then some (str "encounter_id")
  else if table == str "orders" then some (str "encounter_id")
  else if table == str "results" then some (str "encounter_id")
  else if table == str "ddx_entries" then some (str "encounter_id")
  else if table == str "ai_runs" then some (str "encounter_id")
  else if table == str "ai_suggestions" then some (str "ai_run_id")
  else none

/-- The timestamp column of each table: the clinical tables (notes, orders,
results, ddx_entries) carry occurred_at, the registry and AI tables carry
created_at. -/
def specTimestampCol (table : Str) : Str :=
  if table == str "notes" then str "occurred_at"
  else if table == str "orders" then str "occurred_at"
  else if table == str "results" then str "occurred_at"
  else if table == str "ddx_entries" then str "occurred_at"
  else str "created_at"

/-- C5 amended: every select the client issues is ordered by its table's
timestamp column and its equality filter is exactly the owning foreign key
of its table — so the root patients list, having no owner, is unfiltered,
and the ai_suggestions fetch of the latest AI run is filtered by ai_run_id —
and the direction is descending for every query except that ai_suggestions
fetch, which is ordered by created_at ascending. -/
theorem c5_select_queries_amended :
    (clientSelectQueries.all fun q =>
      q.orderBy == specTimestampCol q.table &&
      q.filter == specOwningFk q.table &&
      q.ascending == (q.table == str "ai_suggestions")) = true := by
  decide

/-- C7: applying AI orders when no selected suggestion of type order exists
is a no-op: the state is unchanged and no effect at all is issued (no
insert, no audit event, no reload). -/
theorem c7_apply_empty_noop : ∀ (env : Env) (s : AppState) (eid : Str),
    s.selectedEncounterId = some eid →
    s.aiSuggestions.filter (fun g =>
        g.suggestion_type == str "order"
          && s.selectedAiOrderSuggestionIds.contains g.id) = [] →
    applyAiOrders env s = (s, []) := by
  intro env s eid h1 h2
  simp only [applyAiOrders, h1]
  rw [h2]
  simp

/-- C7 witness: with an encounter selected and no suggestions at all, the
filter is empty and applyAiOrders does nothing. -/
theorem c7_apply_empty_noop_witness :
    applyAiOrders env0 stateWithEncounter = (stateWithEncounter, []) :=
  c7_apply_empty_noop env0 stateWithEncounter (str "e1") rfl (by decide)

/-- C8: selecting a patient clears the selected encounter, and the
encounter-dependent views (notes, orders, results, ddx, latest AI run, AI
suggestions, selected AI order suggestion ids) all end empty; the
hypothesis is the reachability invariant that a state with no selected
encounter already has empty dependent views. -/
theorem c8_select_patient_clears : ∀ (env : Env) (s : AppState) (pid : Str),
    (s.selectedEncounterId = none →
      s.notes = [] ∧ s.orders = [] ∧ s.results = [] ∧ s.ddx = [] ∧
      s.latestAiRun = none ∧ s.aiSuggestions = [] ∧
      s.selectedAiOrderSuggestionIds = []) →
    (selectPatient env s pid).1.selectedEncounterId = none ∧
    (selectPatient env s pid).1.notes = [] ∧
    (selectPatient env s pid).1.orders = [] ∧
    (selectPatient env s pid).1.results = [] ∧
    (selectPatient env s pid).1.ddx = [] ∧
    (selectPatient env s pid).1.latestAiRun = none ∧
    (selectPatient env s pid).1.aiSuggestions = [] ∧
    (selectPatient env s pid).1.selectedAiOrderSuggestionIds = [] := by
  intro env s pid hinv
  by_cases he : s.selectedEncounterId = none
  · obtain ⟨hn, ho, hr, hd, hl, ha, hsel⟩ := hinv he
    by_cases hp : s.selectedPatientId = some pid <;>
      by_cases hf : env.fetchEncountersOk <;>
        simp [selectPatient, fetchEncounters, clearEncounterViews,
              he, hp, hf, hn, ho, hr, hd, hl, ha, hsel]
  · by_cases hp : s.selectedPatientId = some pid <;>
      by_cases hf : env.fetchEncountersOk <;>
        simp [selectPatient, fetchEncounters, clearEncounterViews, he, hp, hf]

/-- C8 witness: selecting a patient from the initial state. -/
theorem c8_select_patient_clears_witness :
    (selectPatient env0 initialState (str "p1")).1.selectedEncounterId = none ∧
    (selectPatient env0 initialState (str "p1")).1.notes = [] ∧
    (selectPatient env0 initialState (str "p1")).1.orders = [] ∧
    (selectPatient env0 initialState (str "p1")).1.results = [] ∧
    (selectPatient env0 initialState (str "p1")).1.ddx = [] ∧
    (selectPatient env0 initialState (str "p1")).1.latestAiRun = none ∧
    (selectPatient env0 initialState (str "p1")).1.aiSuggestions = [] ∧
    (selectPatient env0 initialState (str "p1")).1.selectedAiOrderSuggestionIds = [] :=
  c8_select_patient_clears env0 initialState (str "p1") (by decide)

/-- C9: with no encounter selected, each encounter-scoped mutating
operation returns immediately: the state is unchanged and no effect (in
particular no insert or update) is issued. -/
theorem c9_encounter_guards : ∀ (env : Env) (s : AppState),
    s.selectedEncounterId = none →
    saveNote env s = (s, []) ∧
    (∀ raw, addOrder env s raw = (s, [])) ∧
    addHumanDdx env s = (s, []) ∧
    runAi env s = (s, []) ∧
    applyAiOrders env s = (s, []) := by
  intro env s h
  refine ⟨?_, fun raw => ?_, ?_, ?_, ?_⟩ <;>
    simp [saveNote, addOrder, addHumanDdx, runAi, applyAiOrders, h]

/-- C9 witness: the guards fire on the initial state. -/
theorem c9_encounter_guards_witness :
    saveNote env0 initialState = (initialState, []) ∧
    addOrder env0 initialState (str "CBC") = (initialState, []) ∧
    addHumanDdx env0 initialState = (initialState, []) ∧
    runAi env0 initialState = (initialState, []) ∧
    applyAiOrders env0 initialState = (initialState, []) :=
  ⟨(c9_encounter_guards env0 initialState rfl).1,
   (c9_encounter_guards env0 initialState rfl).2.1 (str "CBC"),
   (c9_encounter_guards env0 initialState rfl).2.2.1,
   (c9_encounter_guards env0 initialState rfl).2.2.2.1,
   (c9_encounter_guards env0 initialState rfl).2.2.2.2⟩

/-- C10: when addHumanDdx inserts, the persisted prob is null whenever the
prob input trims to empty and whenever its numeric conversion is not
finite; any non-null persisted prob comes from a finite conversion, so a
NaN or infinite prob is never inserted. -/
theorem c10_ddx_prob_finite : ∀ (env : Env) (s : AppState) (eid : Str),
    s.selectedEncounterId = some eid →
    jsTrim s.ddxName ≠ [] →
    ∃ row, ddxInserted (addHumanDdx env s).2 = [row] ∧
      (jsTrim s.ddxProb = [] → row.prob = none) ∧
      ((env.toNum s.ddxProb).isFinite = false → row.prob = none) ∧
      (∀ q, row.prob = some q → env.toNum s.ddxProb = JsNum.finite q) := by
  intro env s eid h1 h2
  refine ⟨{ encounter_id := eid, source := str "human", name := jsTrim s.ddxName
            prob := humanDdxProb env s, reason := optOfTrim s.ddxReason
            occurred_at := env.now, data := none }, ?_, ?_, ?_, ?_⟩
  · simp only [addHumanDdx, h1]
    rw [if_neg h2]
    by_cases hd : env.ddxOk <;>
      simp [hd, ddxInserted, logEvent, fetchEncounterData]
  · intro ht
    simp [humanDdxProb, ht]
  · intro hf
    by_cases ht : jsTrim s.ddxProb = []
    · simp [humanDdxProb, ht]
    · cases hn : env.toNum s.ddxProb <;> simp_all [humanDdxProb, JsNum.isFinite]
  · intro q hq
    by_cases ht : jsTrim s.ddxProb = []
    · simp [humanDdxProb, ht] at hq
    · cases hn : env.toNum s.ddxProb <;> simp_all [humanDdxProb]

/-- C10 witness: a non-numeric prob input converts to NaN and the inserted
row carries a null prob. -/
theorem c10_ddx_prob_finite_witness :
    ∃ row, ddxInserted (addHumanDdx env0
        { stateWithEncounter with ddxName := str "AMI", ddxProb := str "abc" }).2
      = [row] ∧
      (jsTrim (({ stateWithEncounter with
          ddxName := str "AMI", ddxProb := str "abc" } : AppState).ddxProb) = [] →
        row.prob = none) ∧
      ((env0.toNum (({ stateWithEncounter with
          ddxName := str "AMI", ddxProb := str "abc" } : AppState).ddxProb)).isFinite
          = false → row.prob = none) ∧
      (∀ q, row.prob = some q →
        env0.toNum (({ stateWithEncounter with
          ddxName := str "AMI", ddxProb := str "abc" } : AppState).ddxProb)
          = JsNum.finite q) :=
  c10_ddx_prob_finite env0
    { stateWithEncounter with ddxName := str "AMI", ddxProb := str "abc" }
    (str "e1") rfl (by decide)

/-- The tables targeted by update calls in a trace. -/
def updateTables : List Eff → List Str
  | [] => []
  | Eff.update tbl _ _ _ :: t => tbl :: updateTables t
  | _ :: t => updateTables t

theorem ordersInserted_append (l1 l2 : List Eff) :
    ordersInserted (l1 ++ l2) = ordersInserted l1 ++ ordersInserted l2 := by
  induction l1 with
  | nil => rfl
  | cons e t ih => cases e <;> simp [ordersInserted, ih]

theorem updateTables_append (l1 l2 : List Eff) :
    updateTables (l1 ++ l2) = updateTables l1 ++ updateTables l2 := by
  induction l1 with
  | nil => rfl
  | cons e t ih => cases e <;> simp [updateTables, ih]

theorem flatMap_cons_split (f : Str → List Eff) (i : Str) (t : List Str) :
    (i :: t).flatMap f = f i ++ t.flatMap f := by
  simp

theorem fetchPatients_trace (env : Env) (s : AppState) :
    (fetchPatients env s).2 = [Eff.fetchPats] := rfl

theorem fetchEncounters_trace (env : Env) (s : AppState) (pid : Str) :
    (fetchEncounters env s pid).2 = [Eff.fetchEncs pid] := rfl

theorem fetchEncounterData_trace (env : Env) (s : AppState) (eid : Str) :
    (fetchEncounterData env s eid).2 = [Eff.fetchEnc eid] := rfl

theorem fetchLatestAi_trace (env : Env) (s : AppState) (eid : Str) :
    (fetchLatestAi env s eid).2 = [Eff.fetchAi eid] := rfl

theorem ordersInserted_flatMap_logEvent (env : Env) (f : Str → LogArgs)
    (ids : List Str) :
    ordersInserted (ids.flatMap fun i => logEvent env (f i)) = [] := by
  induction ids with
  | nil => rfl
  | cons i t ih =>
    rw [flatMap_cons_split, ordersInserted_append, ih]
    simp [logEvent, ordersInserted]

theorem updateTables_flatMap_logEvent (env : Env) (f : Str → LogArgs)
    (ids : List Str) :
    updateTables (ids.flatMap fun i => logEvent env (f i)) = [] := by
  induction ids with
  | nil => rfl
  | cons i t ih =>
    rw [flatMap_cons_split, updateTables_append, ih]
    simp [logEvent, updateTables]

theorem ordersInserted_setSelectedEncounter (env : Env) (s : AppState)
    (v : Option Str) :
    ordersInserted (setSelectedEncounter env s v).2 = [] := by
  simp only [setSelectedEncounter]
  split
  · rfl
  · rcases v with _ | eid
    · rfl
    · simp [fetchEncounterData_trace, fetchLatestAi_trace, ordersInserted,
            ordersInserted_append]

theorem updateTables_setSelectedEncounter (env : Env) (s : AppState)
    (v : Option Str) :
    updateTables (setSelectedEncounter env s v).2 = [] := by
  simp only [setSelectedEncounter]
  split
  · rfl
  · rcases v with _ | eid
    · rfl
    · simp [fetchEncounterData_trace, fetchLatestAi_trace, updateTables,
            updateTables_append]

/-- C6: every orders insert attempted by any user action carries rows whose
status is "sent", and no action ever issues an update against the orders
table (the only update the client issues targets notes), so an order's
status is never transitioned in-app. -/
theorem c6_orders_status_sent : ∀ (env : Env) (s : AppState) (a : Action),
    (∀ r ∈ ordersInserted (step env s a).2, r.status = str "sent") ∧
    (∀ tbl ∈ updateTables (step env s a).2, tbl = str "notes") := by
  intro env s a
  cases a with
  | saveNote =>
    rcases hsel : s.selectedEncounterId with _ | eid
    · simp [step, saveNote, hsel, ordersInserted, updateTables]
    · rcases hen : s.editingNote with _ | en
      · simp [step, saveNote, hsel, hen, ordersInserted, updateTables]
      · rcases hid : en.id with _ | nid <;> by_cases hok : env.notesOk <;>
          simp [step, saveNote, hsel, hen, hid, hok, logEvent,
                fetchEncounterData, ordersInserted, updateTables]
  | addOrder raw =>
    rcases hsel : s.selectedEncounterId with _ | eid
    · simp [step, addOrder, hsel, ordersInserted, updateTables]
    · simp only [step, addOrder, hsel]
      split
      · simp [ordersInserted, updateTables]
      · by_cases hok : env.ordersOk <;>
          simp [hok, logEvent, fetchEncounterData, ordersInserted, updateTables]
  | addResult =>
    rcases hsel : s.selectedEncounterId with _ | eid
    · simp [step, addResult, hsel, ordersInserted, updateTables]
    · simp only [step, addResult, hsel]
      split
      · simp [ordersInserted, updateTables]
      · by_cases hok : env.resultsOk <;>
          simp [hok, logEvent, fetchEncounterData, ordersInserted, updateTables]
  | addHumanDdx =>
    rcases hsel : s.selectedEncounterId with _ | eid
    · simp [step, addHumanDdx, hsel, ordersInserted, updateTables]
    · simp only [step, addHumanDdx, hsel]
      split
      · simp [ordersInserted, updateTables]
      · by_cases hok : env.ddxOk <;>
          simp [hok, logEvent, fetchEncounterData, ordersInserted, updateTables]
  | runAi =>
    rcases hsel : s.selectedEncounterId with _ | eid
    · simp [step, runAi, hsel, ordersInserted, updateTables]
    · by_cases hload : s.isAiLoading
      · simp [step, runAi, hsel, hload, ordersInserted, updateTables]
      · rcases hai : env.aiInvoke with m | res
        · simp [step, runAi, hsel, hload, hai, ordersInserted, updateTables]
        · by_cases hruns : env.aiRunsOk <;> by_cases hsug : env.aiSugOk <;>
            simp [step, runAi, hsel, hload, hai, hruns, hsug, logEvent,
                  fetchEncounterData, fetchLatestAi, ordersInserted, updateTables]
  | applyAiOrders =>
    rcases hsel : s.selectedEncounterId with _ | eid
    · simp [step, applyAiOrders, hsel, ordersInserted, updateTables]
    · simp only [step, applyAiOrders, hsel]
      split
      · simp [ordersInserted, updateTables]
      · by_cases hok : env.ordersOk
        · refine ⟨fun r hr => ?_, fun tbl htbl => ?_⟩
          · simp [hok, fetchEncounterData, ordersInserted, ordersInserted_append,
                  ordersInserted_flatMap_logEvent, List.mem_map] at hr
            rcases hr with ⟨p, hp, rfl⟩
            rfl
          · simp [hok, fetchEncounterData, updateTables, updateTables_append,
                  updateTables_flatMap_logEvent] at htbl
        · refine ⟨fun r hr => ?_, fun tbl htbl => ?_⟩
          · simp [hok, ordersInserted, List.mem_map] at hr
            rcases hr with ⟨p, hp, rfl⟩
            rfl
          · simp [hok, updateTables] at htbl
  | createPatient =>
    simp only [step, createPatient]
    split
    · simp [ordersInserted, updateTables]
    · by_cases hok : env.patientsOk
      · refine ⟨fun r hr => ?_, fun tbl htbl => ?_⟩
        · simp [hok, ordersInserted, ordersInserted_append, fetchPatients_trace,
                fetchEncounters_trace, apply_ite] at hr
        · simp [hok, updateTables, updateTables_append, fetchPatients_trace,
                fetchEncounters_trace, apply_ite] at htbl
      · simp [hok, ordersInserted, updateTables]
  | createEncounter =>
    rcases hsel : s.selectedPatientId with _ | pid
    · simp [step, createEncounter, hsel, ordersInserted, updateTables]
    · simp only [step, createEncounter, hsel]
      by_cases hok : env.encountersOk
      · refine ⟨fun r hr => ?_, fun tbl htbl => ?_⟩
        · simp [hok, ordersInserted, ordersInserted_append, fetchEncounters_trace,
                ordersInserted_setSelectedEncounter] at hr
        · simp [hok, updateTables, updateTables_append, fetchEncounters_trace,
                updateTables_setSelectedEncounter] at htbl
      · simp [hok, ordersInserted, updateTables]
  | selectPatient pid =>
    refine ⟨fun r hr => ?_, fun tbl htbl => ?_⟩
    · by_cases hpc : s.selectedPatientId = some pid <;>
        simp [step, selectPatient, hpc, ordersInserted,
              fetchEncounters_trace] at hr
    · by_cases hpc : s.selectedPatientId = some pid <;>
        simp [step, selectPatient, hpc, updateTables,
              fetchEncounters_trace] at htbl
  | selectEncounter v =>
    refine ⟨fun r hr => ?_, fun tbl htbl => ?_⟩
    · simp [step, ordersInserted_setSelectedEncounter] at hr
    · simp [step, updateTables_setSelectedEncounter] at htbl

/-- C6 witness: a concrete addOrder against a selected encounter attempts
exactly one order insert and its row's status is "sent". -/
theorem c6_orders_status_sent_witness :
    ({ encounter_id := str "e1", code := some (str "CBC")
       name := str "General Order", status := str "sent"
       occurred_at := env0.now, data := none } : OrderInsert).status = str "sent" :=
  (c6_orders_status_sent env0 stateWithEncounter (Action.addOrder (str "CBC"))).1
    { encounter_id := str "e1", code := some (str "CBC")
      name := str "General Order", status := str "sent"
      occurred_at := env0.now, data := none }
    (by decide)

theorem scrubAudit_append (l1 l2 : List Eff) :
    scrubAudit (l1 ++ l2) = scrubAudit l1 ++ scrubAudit l2 := by
  simp [scrubAudit]

theorem alertsOf_append (l1 l2 : List Eff) :
    alertsOf (l1 ++ l2) = alertsOf l1 ++ alertsOf l2 := by
  simp [alertsOf]

theorem scrubAudit_logEvent (env : Env) (args : LogArgs) :
    scrubAudit (logEvent env args) = [] := rfl

theorem alertsOf_logEvent (env : Env) (args : LogArgs) :
    alertsOf (logEvent env args) = [] := rfl

theorem fetchPatients_audit (env : Env) (b : Bool) (s : AppState) :
    fetchPatients { env with auditOk := b } s = fetchPatients env s := rfl

theorem fetchEncounters_audit (env : Env) (b : Bool) (s : AppState) (pid : Str) :
    fetchEncounters { env with auditOk := b } s pid = fetchEncounters env s pid := rfl

theorem fetchEncounterData_audit (env : Env) (b : Bool) (s : AppState) (eid : Str) :
    fetchEncounterData { env with auditOk := b } s eid
      = fetchEncounterData env s eid := rfl

theorem fetchLatestAi_audit (env : Env) (b : Bool) (s : AppState) (eid : Str) :
    fetchLatestAi { env with auditOk := b } s eid = fetchLatestAi env s eid := rfl

theorem scrubAudit_nil : scrubAudit [] = [] := rfl

theorem alertsOf_nil : alertsOf [] = [] := rfl

theorem scrubAudit_cons (e : Eff) (t : List Eff) :
    scrubAudit (e :: t) =
      if e.isInsertPatientEvents then scrubAudit t else e :: scrubAudit t := by
  cases he : e.isInsertPatientEvents <;> simp [scrubAudit, List.filter_cons, he]

theorem alertsOf_cons (e : Eff) (t : List Eff) :
    alertsOf (e :: t) =
      match e with
      | Eff.alert m => m :: alertsOf t
      | _ => alertsOf t := by
  cases e <;> simp [alertsOf, List.filterMap_cons]

theorem scrubAudit_flatMap_logEvent (env : Env) (f : Str → LogArgs)
    (ids : List Str) :
    scrubAudit (ids.flatMap fun i => logEvent env (f i)) = [] := by
  induction ids with
  | nil => rfl
  | cons i t ih =>
    rw [flatMap_cons_split, scrubAudit_append, ih, scrubAudit_logEvent]
    rfl

theorem alertsOf_flatMap_logEvent (env : Env) (f : Str → LogArgs)
    (ids : List Str) :
    alertsOf (ids.flatMap fun i => logEvent env (f i)) = [] := by
  induction ids with
  | nil => rfl
  | cons i t ih =>
    rw [flatMap_cons_split, alertsOf_append, ih, alertsOf_logEvent]
    rfl

/-- The environment with the audit-insert outcome replaced. -/
def Env.withAudit (env : Env) (b : Bool) : Env := { env with auditOk := b }

@[simp] theorem withAudit_now (env : Env) (b : Bool) :
    (env.withAudit b).now = env.now := rfl

@[simp] theorem withAudit_errMsg (env : Env) (b : Bool) :
    (env.withAudit b).errMsg = env.errMsg := rfl

@[simp] theorem withAudit_toIso (env : Env) (b : Bool) :
    (env.withAudit b).toIso = env.toIso := rfl

@[simp] theorem withAudit_toNum (env : Env) (b : Bool) :
    (env.withAudit b).toNum = env.toNum := rfl

@[simp] theorem withAudit_aiInvoke (env : Env) (b : Bool) :
    (env.withAudit b).aiInvoke = env.aiInvoke := rfl

@[simp] theorem withAudit_notesOk (env : Env) (b : Bool) :
    (env.withAudit b).notesOk = env.notesOk := rfl

@[simp] theorem withAudit_ordersOk (env : Env) (b : Bool) :
    (env.withAudit b).ordersOk = env.ordersOk := rfl

@[simp] theorem withAudit_resultsOk (env : Env) (b : Bool) :
    (env.withAudit b).resultsOk = env.resultsOk := rfl

@[simp] theorem withAudit_ddxOk (env : Env) (b : Bool) :
    (env.withAudit b).ddxOk = env.ddxOk := rfl

@[simp] theorem withAudit_aiRunsOk (env : Env) (b : Bool) :
    (env.withAudit b).aiRunsOk = env.aiRunsOk := rfl

@[simp] theorem withAudit_aiSugOk (env : Env) (b : Bool) :
    (env.withAudit b).aiSugOk = env.aiSugOk := rfl

@[simp] theorem withAudit_auditOk (env : Env) (b : Bool) :
    (env.withAudit b).auditOk = b := rfl

@[simp] theorem withAudit_newNoteId (env : Env) (b : Bool) :
    (env.withAudit b).newNoteId = env.newNoteId := rfl

@[simp] theorem withAudit_newOrderId (env : Env) (b : Bool) :
    (env.withAudit b).newOrderId = env.newOrderId := rfl

@[simp] theorem withAudit_newResultId (env : Env) (b : Bool) :
    (env.withAudit b).newResultId = env.newResultId := rfl

@[simp] theorem withAudit_newDdxId (env : Env) (b : Bool) :
    (env.withAudit b).newDdxId = env.newDdxId := rfl

@[simp] theorem withAudit_newAiRunId (env : Env) (b : Bool) :
    (env.withAudit b).newAiRunId = env.newAiRunId := rfl

@[simp] theorem withAudit_newOrderIds (env : Env) (b : Bool) :
    (env.withAudit b).newOrderIds = env.newOrderIds := rfl

@[simp] theorem humanDdxProb_withAudit (env : Env) (b : Bool) (s : AppState) :
    humanDdxProb (env.withAudit b) s = humanDdxProb env s := rfl

@[simp] theorem fetchPatients_withAudit (env : Env) (b : Bool) (s : AppState) :
    fetchPatients (env.withAudit b) s = fetchPatients env s := rfl

@[simp] theorem fetchEncounters_withAudit (env : Env) (b : Bool) (s : AppState)
    (pid : Str) :
    fetchEncounters (env.withAudit b) s pid = fetchEncounters env s pid := rfl

@[simp] theorem fetchEncounterData_withAudit (env : Env) (b : Bool) (s : AppState)
    (eid : Str) :
    fetchEncounterData (env.withAudit b) s eid = fetchEncounterData env s eid := rfl

@[simp] theorem fetchLatestAi_withAudit (env : Env) (b : Bool) (s : AppState)
    (eid : Str) :
    fetchLatestAi (env.withAudit b) s eid = fetchLatestAi env s eid := rfl

@[simp] theorem setSelectedEncounter_withAudit (env : Env) (b : Bool)
    (s : AppState) (v : Option Str) :
    setSelectedEncounter (env.withAudit b) s v = setSelectedEncounter env s v := rfl

@[simp] theorem selectPatient_withAudit (env : Env) (b : Bool) (s : AppState)
    (pid : Str) :
    selectPatient (env.withAudit b) s pid = selectPatient env s pid := rfl

@[simp] theorem createPatient_withAudit (env : Env) (b : Bool) (s : AppState) :
    createPatient (env.withAudit b) s = createPatient env s := rfl

@[simp] theorem createEncounter_withAudit (env : Env) (b : Bool) (s : AppState) :
    createEncounter (env.withAudit b) s = createEncounter env s := rfl

/-- C4: the outcome of the best-effort patient_events audit insert never
influences an action: for every user action, the resulting state, the trace
with the audit inserts removed, and the alerts shown to the user are
identical whether the audit insert succeeds or fails -- so an audit failure
is silent and never rolls back or blocks the primary write. -/
theorem c4_audit_best_effort : ∀ (env : Env) (s : AppState) (a : Action) (b : Bool),
    (step (env.withAudit b) s a).1 = (step (env.withAudit true) s a).1 ∧
    scrubAudit (step (env.withAudit b) s a).2
      = scrubAudit (step (env.withAudit true) s a).2 ∧
    alertsOf (step (env.withAudit b) s a).2
      = alertsOf (step (env.withAudit true) s a).2 := by
  intro env s a b
  cases a with
  | saveNote =>
    rcases hsel : s.selectedEncounterId with _ | eid
    · simp [step, saveNote, hsel]
    · rcases hen : s.editingNote with _ | en
      · simp [step, saveNote, hsel, hen]
      · rcases hid : en.id with _ | nid <;> by_cases hok : env.notesOk <;>
          refine ⟨?_, ?_, ?_⟩ <;>
          simp [step, saveNote, hsel, hen, hid, hok, logEvent,
                scrubAudit_append, alertsOf_append, fetchEncounterData_trace,
                scrubAudit, alertsOf, Eff.isInsertPatientEvents]
  | addOrder raw =>
    rcases hsel : s.selectedEncounterId with _ | eid
    · simp [step, addOrder, hsel]
    · by_cases hval : jsTrim raw = []
      · simp [step, addOrder, hsel, hval]
      · by_cases hok : env.ordersOk <;>
          refine ⟨?_, ?_, ?_⟩ <;>
          simp [step, addOrder, hsel, hval, hok, logEvent,
                scrubAudit_append, alertsOf_append, fetchEncounterData_trace,
                scrubAudit, alertsOf, Eff.isInsertPatientEvents]
  | addResult =>
    rcases hsel : s.selectedEncounterId with _ | eid
    · simp [step, addResult, hsel]
    · by_cases hval : jsTrim s.resultName = []
      · simp [step, addResult, hsel, hval]
      · by_cases hok : env.resultsOk <;>
          refine ⟨?_, ?_, ?_⟩ <;>
          simp [step, addResult, hsel, hval, hok, logEvent,
                scrubAudit_append, alertsOf_append, fetchEncounterData_trace,
                scrubAudit, alertsOf, Eff.isInsertPatientEvents]
  | addHumanDdx =>
    rcases hsel : s.selectedEncounterId with _ | eid
    · simp [step, addHumanDdx, hsel]
    · by_cases hval : jsTrim s.ddxName = []
      · simp [step, addHumanDdx, hsel, hval]
      · by_cases hok : env.ddxOk <;>
          refine ⟨?_, ?_, ?_⟩ <;>
          simp [step, addHumanDdx, hsel, hval, hok, logEvent,
                scrubAudit_append, alertsOf_append, fetchEncounterData_trace,
                scrubAudit, alertsOf, Eff.isInsertPatientEvents]
  | runAi =>
    rcases hsel : s.selectedEncounterId with _ | eid
    · simp [step, runAi, hsel]
    · by_cases hload : s.isAiLoading
      · simp [step, runAi, hsel, hload]
      · rcases hai : env.aiInvoke with m | res
        · simp [step, runAi, hsel, hload, hai]
        · by_cases hruns : env.aiRunsOk <;> by_cases hsug : env.aiSugOk <;>
            refine ⟨?_, ?_, ?_⟩ <;>
            simp [step, runAi, hsel, hload, hai, hruns, hsug, logEvent,
                  scrubAudit_append, alertsOf_append, fetchEncounterData_trace,
                  fetchLatestAi_trace, scrubAudit, alertsOf,
                  Eff.isInsertPatientEvents]
  | applyAiOrders =>
    rcases hsel : s.selectedEncounterId with _ | eid
    · simp [step, applyAiOrders, hsel]
    · by_cases hp : (s.aiSuggestions.filter fun g =>
          g.suggestion_type == str "order"
            && s.selectedAiOrderSuggestionIds.contains g.id).length = 0
      · simp only [step, applyAiOrders, hsel]
        rw [hp]
        simp
      · by_cases hok : env.ordersOk <;>
          refine ⟨?_, ?_, ?_⟩ <;>
          (simp only [step, applyAiOrders, hsel]
           simp only [if_neg hp]
           simp [hok, scrubAudit_cons, alertsOf_cons, scrubAudit_nil,
                 alertsOf_nil, scrubAudit_append, alertsOf_append,
                 scrubAudit_flatMap_logEvent, alertsOf_flatMap_logEvent,
                 scrubAudit_logEvent, alertsOf_logEvent, fetchEncounterData_trace,
                 Eff.isInsertPatientEvents])
  | createPatient => simp [step]
  | createEncounter => simp [step]
  | selectPatient pid => simp [step]
  | selectEncounter v => simp [step]

end EdWs
